import Mathlib

/-!
Verification development for the StickyWall content-enrichment pipeline
(backend oEmbed extraction service, response cache, background tasks and
rate limiter).  The definitions below are shallow embeddings of the Python
source under `backend/app`; theorems settle the frozen specification
claims against them.
-/

set_option maxRecDepth 10000

namespace StickyWall

/-! ## Timestamps

`datetime.datetime` values (always UTC in this code base) are modelled as
field records.  Python's `datetime.replace(hour=23, minute=59, second=59)`
keeps every field it is not given, including `microsecond`.  Chronological
comparison of two datetimes is lexicographic on the fields. -/

structure PyDateTime where
  year : Nat
  month : Nat
  day : Nat
  hour : Nat
  minute : Nat
  second : Nat
  microsecond : Nat
  deriving DecidableEq, Repr

/-- Chronological strict order on datetimes (lexicographic by field, as for
valid `datetime` values). -/
def PyDateTime.before (a b : PyDateTime) : Bool :=
  (a.year < b.year) ||
  (a.year == b.year && ((a.month < b.month) ||
  (a.month == b.month && ((a.day < b.day) ||
  (a.day == b.day && ((a.hour < b.hour) ||
  (a.hour == b.hour && ((a.minute < b.minute) ||
  (a.minute == b.minute && ((a.second < b.second) ||
  (a.second == b.second && (a.microsecond < b.microsecond))))))))))))

theorem PyDateTime.before_asymm {a b : PyDateTime}
    (h : PyDateTime.before a b = true) : PyDateTime.before b a = false := by
  rw [Bool.eq_false_iff]
  simp only [PyDateTime.before, Bool.or_eq_true, Bool.and_eq_true,
    decide_eq_true_eq, beq_iff_eq, ne_eq] at h ⊢
  omega

/-- `datetime.utcnow().replace(hour=23, minute=59, second=59)` — the cache
expiry stamp used by `preview_oembed` and `batch_preview_oembed`
(`backend/app/api/endpoints/oembed.py`). -/
def endOfDayStamp (now : PyDateTime) : PyDateTime :=
  { now with hour := 23, minute := 59, second := 59 }

/-- Seconds-of-day of a datetime, used only to state that the write-to-expiry
gap is not a fixed TTL. -/
def secondsOfDay (t : PyDateTime) : Nat :=
  t.hour * 3600 + t.minute * 60 + t.second

/-! ## SHA-256

`hashlib.sha256(url.encode()).hexdigest()` is the cache key.  The hash is
embedded executably over byte lists (FIPS 180-4); round constants are
derived, as in the standard, from the fractional parts of the cube/square
roots of the first primes. -/

def w32 (x : Nat) : Nat := x % 4294967296

def rotr32 (n x : Nat) : Nat := w32 ((x >>> n) ||| (x <<< (32 - n)))

def bnot32 (x : Nat) : Nat := x ^^^ 4294967295

def sha2Ch (x y z : Nat) : Nat := (x &&& y) ^^^ (bnot32 x &&& z)

def sha2Maj (x y z : Nat) : Nat := (x &&& y) ^^^ (x &&& z) ^^^ (y &&& z)

def bigSigma0 (x : Nat) : Nat := rotr32 2 x ^^^ rotr32 13 x ^^^ rotr32 22 x

def bigSigma1 (x : Nat) : Nat := rotr32 6 x ^^^ rotr32 11 x ^^^ rotr32 25 x

def smallSigma0 (x : Nat) : Nat := rotr32 7 x ^^^ rotr32 18 x ^^^ (x >>> 3)

def smallSigma1 (x : Nat) : Nat := rotr32 17 x ^^^ rotr32 19 x ^^^ (x >>> 10)

/-- Integer cube root by bounded binary search (enough fuel for arguments
below `2^120`). -/
def icbrtAux : Nat → Nat → Nat → Nat → Nat
  | 0, lo, _, _ => lo
  | fuel + 1, lo, hi, n =>
    if hi ≤ lo + 1 then lo
    else
      let mid := (lo + hi) / 2
      if mid * mid * mid ≤ n then icbrtAux fuel mid hi n
      else icbrtAux fuel lo mid n

def icbrt (n : Nat) : Nat := icbrtAux 200 0 (n + 2) n

/-- Integer square root by bounded binary search. -/
def isqrtAux : Nat → Nat → Nat → Nat → Nat
  | 0, lo, _, _ => lo
  | fuel + 1, lo, hi, n =>
    if hi ≤ lo + 1 then lo
    else
      let mid := (lo + hi) / 2
      if mid * mid ≤ n then isqrtAux fuel mid hi n
      else isqrtAux fuel lo mid n

def isqrt (n : Nat) : Nat := isqrtAux 200 0 (n + 2) n

/-- First 64 primes. -/
def sha2Primes : List Nat :=
  [2, 3, 5, 7, 11, 13, 17, 19, 23, 29, 31, 37, 41, 43, 47, 53,
   59, 61, 67, 71, 73, 79, 83, 89, 97, 101, 103, 107, 109, 113, 127, 131,
   137, 139, 149, 151, 157, 163, 167, 173, 179, 181, 191, 193, 197, 199, 211, 223,
   227, 229, 233, 239, 241, 251, 257, 263, 269, 271, 277, 281, 283, 293, 307, 311]

/-- Round constants: first 32 bits of the fractional parts of the cube roots
of the first 64 primes. -/
def sha2K : List Nat := sha2Primes.map (fun p => icbrt (p * 2 ^ 96) % 4294967296)

/-- Initial hash value: first 32 bits of the fractional parts of the square
roots of the first 8 primes. -/
def sha2H0 : List Nat := (sha2Primes.take 8).map (fun p => isqrt (p * 2 ^ 64) % 4294967296)

/-- Big-endian byte expansion (`k` bytes). -/
def beBytes (k n : Nat) : List Nat :=
  (List.range k).map (fun i => (n >>> (8 * (k - 1 - i))) &&& 255)

/-- SHA-256 message padding. -/
def sha2Pad (msg : List Nat) : List Nat :=
  let L := msg.length
  let z := (64 + 56 - (L + 1) % 64) % 64
  msg ++ [128] ++ List.replicate z 0 ++ beBytes 8 (8 * L)

def chunk64Fuel : Nat → List Nat → List (List Nat)
  | 0, _ => []
  | _, [] => []
  | fuel + 1, b :: rest => ((b :: rest).take 64) :: chunk64Fuel fuel ((b :: rest).drop 64)

def chunk64 (bs : List Nat) : List (List Nat) := chunk64Fuel bs.length bs

/-- 16 big-endian 32-bit words from a 64-byte block. -/
def blockWords (block : List Nat) : List Nat :=
  (List.range 16).map (fun j =>
    (block.getD (4 * j) 0 <<< 24) ||| (block.getD (4 * j + 1) 0 <<< 16) |||
    (block.getD (4 * j + 2) 0 <<< 8) ||| block.getD (4 * j + 3) 0)

/-- Message schedule `W_0 .. W_63`. -/
def msgSchedule (w0 : List Nat) : List Nat :=
  (List.range 48).foldl
    (fun w t =>
      w ++ [w32 (smallSigma1 (w.getD (t + 14) 0) + w.getD (t + 9) 0 +
                 smallSigma0 (w.getD (t + 1) 0) + w.getD t 0)])
    w0

def sha2Round (w : List Nat) (s : List Nat) (t : Nat) : List Nat :=
  match s with
  | [a, b, c, d, e, f, g, h] =>
    let t1 := w32 (h + bigSigma1 e + sha2Ch e f g + sha2K.getD t 0 + w.getD t 0)
    let t2 := w32 (bigSigma0 a + sha2Maj a b c)
    [w32 (t1 + t2), a, b, c, w32 (d + t1), e, f, g]
  | _ => s

def compressBlock (H : List Nat) (block : List Nat) : List Nat :=
  let w := msgSchedule (blockWords block)
  let s := (List.range 64).foldl (sha2Round w) H
  (List.range 8).map (fun i => w32 (H.getD i 0 + s.getD i 0))

def sha256Bytes (msg : List Nat) : List Nat :=
  ((chunk64 (sha2Pad msg)).foldl compressBlock sha2H0).flatMap (beBytes 4)

def hexDigit (n : Nat) : Char :=
  if n < 10 then Char.ofNat (48 + n) else Char.ofNat (87 + n)

def byteHex (b : Nat) : List Char := [hexDigit (b / 16), hexDigit (b % 16)]

/-- UTF-8 encoding of one character (`str.encode()`). -/
def utf8Char (c : Char) : List Nat :=
  let n := c.toNat
  if n < 128 then [n]
  else if n < 2048 then [192 ||| (n >>> 6), 128 ||| (n &&& 63)]
  else if n < 65536 then
    [224 ||| (n >>> 12), 128 ||| ((n >>> 6) &&& 63), 128 ||| (n &&& 63)]
  else
    [240 ||| (n >>> 18), 128 ||| ((n >>> 12) &&& 63),
     128 ||| ((n >>> 6) &&& 63), 128 ||| (n &&& 63)]

def utf8Encode (s : String) : List Nat := s.data.flatMap utf8Char

/-- `hashlib.sha256(s.encode()).hexdigest()`. -/
def sha256Hex (s : String) : String :=
  String.mk ((sha256Bytes (utf8Encode s)).flatMap byteHex)

set_option maxHeartbeats 2000000 in
/-- Sanity check against the FIPS 180-4 test vector for "abc". -/
theorem sha256Hex_abc :
    sha256Hex "abc" =
      "ba7816bf8f01cfea414140de5dae2223b00361a396177a9cb410ff61f20015ad" := by
  decide

/-! ## oEmbed response records

`OEmbedResponse` (pydantic model in `backend/app/services/oembed_service.py`).
URL-typed fields (`HttpUrl`) are carried as plain strings, as they are after
the endpoint code stringifies them for JSON storage; pydantic's URL syntax
validation is treated as part of the environment. -/

structure OEmbedResp where
  type : String
  version : String := "1.0"
  title : Option String := none
  author_name : Option String := none
  author_url : Option String := none
  provider_name : Option String := none
  provider_url : Option String := none
  cache_age : Option Nat := none
  thumbnail_url : Option String := none
  thumbnail_width : Option Nat := none
  thumbnail_height : Option Nat := none
  url : Option String := none
  width : Option Nat := none
  height : Option Nat := none
  html : Option String := none
  platform : Option String := none
  platform_id : Option String := none
  description : Option String := none
  duration : Option Nat := none
  view_count : Option Nat := none
  like_count : Option Nat := none
  created_at : Option String := none
  deriving DecidableEq, Repr

/-! ## Response cache

`OEmbedCache` rows (`backend/app/models/models.py`) and the read/write logic
of `preview_oembed` / `batch_preview_oembed`
(`backend/app/api/endpoints/oembed.py`).  The stored JSON payload
(`oembed_response`) round-trips through `OEmbedResponse(**dict)`; that
serialization pair is modelled as the identity on `OEmbedResp`. -/

structure OEmbedCacheRow where
  url_hash : String
  original_url : String
  oembed_response : OEmbedResp
  status_code : Nat
  platform : Option String
  expires_at : PyDateTime
  hit_count : Nat := 0
  last_hit : Option PyDateTime := none
  deriving DecidableEq, Repr

/-- The cache entry built on a successful extraction:
`OEmbedCache(url_hash=sha256(url), original_url=url, oembed_response=...,
status_code=200, platform=..., expires_at=utcnow().replace(hour=23,
minute=59, second=59))`; `hit_count` takes its column default 0. -/
def mkCacheEntry (url : String) (now : PyDateTime) (resp : OEmbedResp) : OEmbedCacheRow :=
  { url_hash := sha256Hex url
    original_url := url
    oembed_response := resp
    status_code := 200
    platform := resp.platform
    expires_at := endOfDayStamp now }

/-- The cache-hit statistics update: `hit_count += 1; last_hit =
datetime.utcnow()`. -/
def bumpRow (now : PyDateTime) (e : OEmbedCacheRow) : OEmbedCacheRow :=
  { e with hit_count := e.hit_count + 1, last_hit := some now }

/-- The cache-hit query and update: `select(OEmbedCache).where(url_hash ==
h, expires_at > utcnow())`, then `hit_count += 1; last_hit = utcnow()` on
the row found.  Returns the row found (as read) and the updated table. -/
def cacheReadAux (now : PyDateTime) (h : String) :
    List OEmbedCacheRow → Option OEmbedCacheRow × List OEmbedCacheRow
  | [] => (none, [])
  | e :: rest =>
    if e.url_hash == h && PyDateTime.before now e.expires_at then
      (some e, bumpRow now e :: rest)
    else
      let p := cacheReadAux now h rest
      (p.1, e :: p.2)

def cacheRead (db : List OEmbedCacheRow) (url : String) (now : PyDateTime) :
    Option OEmbedCacheRow × List OEmbedCacheRow :=
  cacheReadAux now (sha256Hex url) db

/-- `k` consecutive cache reads of the same URL at time `now`. -/
def cacheReadN (url : String) (now : PyDateTime) : Nat → List OEmbedCacheRow → List OEmbedCacheRow
  | 0, db => db
  | k + 1, db => (cacheRead (cacheReadN url now k db) url now).2

/-! ## Task status polling

`BackgroundProcessor.get_task_status`
(`backend/app/services/background_processor.py`) reads task state through
Celery's `AsyncResult`.  The Celery result backend is modelled from its
documented semantics: a task id with no stored metadata is implicitly in
state `PENDING` (Celery does not distinguish unknown ids from
not-yet-started tasks); `ready()` is membership in the ready states
`SUCCESS`/`FAILURE`/`REVOKED`, `successful()` is `state == SUCCESS`,
`failed()` is `state == FAILURE`. -/

structure CeleryTaskMeta where
  state : String
  result : Option String := none
  traceback : Option String := none
  deriving DecidableEq, Repr

def asyncResultMeta (backend : List (String × CeleryTaskMeta)) (task_id : String) :
    CeleryTaskMeta :=
  match backend.find? (fun kv => kv.1 == task_id) with
  | some kv => kv.2
  | none => { state := "PENDING" }

structure TaskStatusInfo where
  task_id : String
  status : String
  result : Option String
  info : Option String
  traceback : Option String
  ready : Bool
  successful : Bool
  failed : Bool
  deriving DecidableEq, Repr

/-- `get_task_status` (lines 140–170): the non-exception path builds the
status dict from `AsyncResult`; the `'UNKNOWN'` status appears only in the
`except` branch, which an absent task id does not trigger. -/
def get_task_status (backend : List (String × CeleryTaskMeta)) (task_id : String) :
    TaskStatusInfo :=
  let m := asyncResultMeta backend task_id
  let isReady := m.state == "SUCCESS" || m.state == "FAILURE" || m.state == "REVOKED"
  { task_id := task_id
    status := m.state
    result := if isReady then m.result else none
    info := m.result
    traceback := if m.state == "FAILURE" then m.traceback else none
    ready := isReady
    successful := if isReady then m.state == "SUCCESS" else false
    failed := if isReady then m.state == "FAILURE" else false }

/-! ## Background retry logic

The retry branch of `process_oembed_task`
(`backend/app/tasks/oembed_tasks.py`, lines 369–399):
`@celery_app.task(bind=True, max_retries=3, ...)`; on a failing attempt,
`if self.request.retries < self.max_retries: raise self.retry(countdown=
min(300, (2 ** self.request.retries) * 60))`, else log "Max retries
exceeded" and `return False`.  A task run is modelled as the retry counter
plus a phase: executing an attempt, waiting for a scheduled retry, or
given up (the terminal `return False`). -/

inductive TaskRunPhase where
  | active
  | waiting (delaySecs : Nat)
  | exhausted
  deriving DecidableEq, Repr

structure OEmbedTaskState where
  retries : Nat
  phase : TaskRunPhase
  deriving DecidableEq, Repr

/-- Effect of one failing execution attempt (exception escaping
`run_until_complete`) on the task state; once the task has given up, no
worker executes it again, so the state is absorbing. -/
def processOembedRetryStep (max_retries : Nat) (s : OEmbedTaskState) : OEmbedTaskState :=
  match s.phase with
  | .exhausted => s
  | _ =>
    if s.retries < max_retries then
      { retries := s.retries + 1, phase := .waiting (min 300 (2 ^ s.retries * 60)) }
    else
      { s with phase := .exhausted }

/-! ## Rate limiter

`ClaudeAIService._check_rate_limit` (`backend/app/services/claude_ai.py`,
lines 40–63): drop timestamps 60 or more seconds old, then, if the window
still holds at least `rate_limit_requests_per_minute` (= 60) entries,
`await asyncio.sleep(1)` once and return.  Timestamps are modelled in
whole seconds (`(now - ts).total_seconds() < 60`); the returned number is
the seconds slept.  There is no rejection path: the function always
returns to its caller. -/

def check_rate_limit (now : Int) (request_timestamps : List Int) (perMinute : Nat) :
    List Int × Nat :=
  let kept := request_timestamps.filter (fun ts => now - ts < 60)
  (kept, if perMinute ≤ kept.length then 1 else 0)

/-! ## String utilities

Models of the Python string operations used by `oembed_service.py`:
`str.lower` (ASCII range; the URLs involved are ASCII), substring test
(`needle in hay`), `str.strip`, and truthiness of optional strings
(`None` and `""` are falsy). -/

def lowerChar (c : Char) : Char :=
  if 'A' ≤ c ∧ c ≤ 'Z' then Char.ofNat (c.toNat + 32) else c

def lowerStr (s : String) : String := String.mk (s.data.map lowerChar)

/-- Does `needle` occur at the head of `hay`? -/
def litAt : List Char → List Char → Bool
  | [], _ => true
  | _ :: _, [] => false
  | c :: ns, d :: hs => c == d && litAt ns hs

/-- Case-insensitive variant (for `re.IGNORECASE` literals). -/
def litAtCI : List Char → List Char → Bool
  | [], _ => true
  | _ :: _, [] => false
  | c :: ns, d :: hs => lowerChar c == lowerChar d && litAtCI ns hs

def containsSub (needle : List Char) : List Char → Bool
  | [] => litAt needle []
  | c :: rest => litAt needle (c :: rest) || containsSub needle rest

/-- Python's `needle in hay`. -/
def strIn (needle hay : String) : Bool := containsSub needle.data hay.data

def isPySpace (c : Char) : Bool :=
  c == ' ' || c == '\t' || c == '\n' || c == '\x0d' || c == '\x0b' || c == '\x0c'

/-- Python's `str.strip()`. -/
def pyStrip (s : String) : String :=
  String.mk (((s.data.dropWhile isPySpace).reverse.dropWhile isPySpace).reverse)

/-- Truthiness of an optional string: `None` and `""` are falsy. -/
def optTruthy : Option String → Bool
  | none => false
  | some s => !s.isEmpty

/-- `not metadata.get(key)`: the key is missing or its value is falsy. -/
def mFalsy (o : Option String) : Bool := !optTruthy o

/-- Python's `a or b` for an optional `a` and string default `b`. -/
def pyOr (a : Option String) (b : String) : String :=
  if optTruthy a then a.getD "" else b

/-- Python's `a or b` on two optional strings. -/
def pyOrOpt (a b : Option String) : Option String :=
  if optTruthy a then a else b

/-! ## Scheme pattern matching

`_identify_provider` turns each provider scheme into a regex with
`scheme.replace("*", ".*")` and tests `re.match("^" + pattern + "$", url)`.
In the scheme table the only regex metacharacters left unescaped are `.`
(any character) and the inserted `.*`; everything else is literal.  The
matcher is fuel-based so that it reduces in the kernel; each step shrinks
`pattern.length + url.length`, so `p.length + s.length + 1` fuel always
suffices. -/

def patMatchFuel : Nat → List Char → List Char → Bool
  | 0, _, _ => false
  | fuel + 1, p, s =>
    match p, s with
    | [], [] => true
    | [], _ :: _ => false
    | '*' :: p2, s =>
      patMatchFuel fuel p2 s ||
        (match s with
         | [] => false
         | _ :: s2 => patMatchFuel fuel ('*' :: p2) s2)
    | '.' :: _, [] => false
    | '.' :: p2, _ :: s2 => patMatchFuel fuel p2 s2
    | _ :: _, [] => false
    | c :: p2, d :: s2 => c == d && patMatchFuel fuel p2 s2

def schemeMatches (scheme url : String) : Bool :=
  patMatchFuel (scheme.data.length + url.data.length + 1) scheme.data url.data

/-! ## Regex search helpers

The ID-extraction and metadata patterns are all of a few fixed shapes:
a literal (or one of several literal alternatives), followed by a greedy
character-class run, optionally followed by another literal.  `re.search`
semantics: leftmost starting position wins; at one position alternatives
are tried in order; the runs are maximal (the character class excludes the
following delimiter, so no backtracking into the run is possible). -/

/-- At the current position: try each literal alternative in order; on a
match take the maximal run of `good` characters after it (must be
nonempty) as the captured group. -/
def tryAltsAt (alts : List (List Char)) (good : Char → Bool) (hay : List Char) :
    Option (List Char) :=
  match alts with
  | [] => none
  | a :: rest =>
    if litAt a hay then
      let run := (hay.drop a.length).takeWhile good
      if run.isEmpty then tryAltsAt rest good hay else some run
    else tryAltsAt rest good hay

/-- `re.search` for `(?:alt1|alt2|...)([class]+)`. -/
def searchAltRun (alts : List (List Char)) (good : Char → Bool) : List Char → Option (List Char)
  | [] => tryAltsAt alts good []
  | c :: rest =>
    match tryAltsAt alts good (c :: rest) with
    | some r => some r
    | none => searchAltRun alts good rest

/-- At the current position: literal `pre`, then a maximal (possibly empty)
run of characters other than `stop` as the group, then literal `post`.
Case-insensitive literals (`re.IGNORECASE`). -/
def tryCapAt (pre post : List Char) (stop : Char) (hay : List Char) : Option (List Char) :=
  if litAtCI pre hay then
    let rest := hay.drop pre.length
    let cap := rest.takeWhile (fun c => c != stop)
    if litAtCI post (rest.drop cap.length) then some cap else none
  else none

/-- `re.search(pre + "([^stop]*)" + post, hay, re.IGNORECASE)`, returning
group 1. -/
def searchCap (pre post : List Char) (stop : Char) : List Char → Option (List Char)
  | [] => tryCapAt pre post stop []
  | c :: rest =>
    match tryCapAt pre post stop (c :: rest) with
    | some r => some r
    | none => searchCap pre post stop rest

/-- At the current position: literal `pre1`, a nonempty run of non-`/`
characters, literal `pre2`, then a nonempty digit run as the group (shape
of `tiktok\.com/@[^/]+/video/(\d+)` and the Facebook posts/videos
patterns). -/
def trySegDigitsAt (pre1 pre2 : List Char) (hay : List Char) : Option (List Char) :=
  if litAt pre1 hay then
    let rest := hay.drop pre1.length
    let seg := rest.takeWhile (fun c => c != '/')
    if seg.isEmpty then none
    else
      let rest2 := rest.drop seg.length
      if litAt pre2 rest2 then
        let run := (rest2.drop pre2.length).takeWhile Char.isDigit
        if run.isEmpty then none else some run
      else none
  else none

def searchSegDigits (pre1 pre2 : List Char) : List Char → Option (List Char)
  | [] => trySegDigitsAt pre1 pre2 []
  | c :: rest =>
    match trySegDigitsAt pre1 pre2 (c :: rest) with
    | some r => some r
    | none => searchSegDigits pre1 pre2 rest

/-- Like `trySegDigitsAt` but with two nonempty non-`/` segments
(`facebook\.com/[^/]+/photos/[^/]+/(\d+)`). -/
def trySeg2DigitsAt (pre1 pre2 : List Char) (hay : List Char) : Option (List Char) :=
  if litAt pre1 hay then
    let rest := hay.drop pre1.length
    let seg := rest.takeWhile (fun c => c != '/')
    if seg.isEmpty then none
    else
      let rest2 := rest.drop seg.length
      if litAt pre2 rest2 then
        let rest3 := rest2.drop pre2.length
        let seg2 := rest3.takeWhile (fun c => c != '/')
        if seg2.isEmpty then none
        else
          let rest4 := rest3.drop seg2.length
          if litAt ['/'] rest4 then
            let run := (rest4.drop 1).takeWhile Char.isDigit
            if run.isEmpty then none else some run
          else none
      else none
  else none

def searchSeg2Digits (pre1 pre2 : List Char) : List Char → Option (List Char)
  | [] => trySeg2DigitsAt pre1 pre2 []
  | c :: rest =>
    match trySeg2DigitsAt pre1 pre2 (c :: rest) with
    | some r => some r
    | none => searchSeg2Digits pre1 pre2 rest

/-- Board/thread capture for `4chan\.org/([^/]+)/thread/(\d+)`. -/
def trySegThreadAt (hay : List Char) : Option (List Char × List Char) :=
  if litAt "4chan.org/".data hay then
    let rest := hay.drop 10
    let board := rest.takeWhile (fun c => c != '/')
    if board.isEmpty then none
    else
      let rest2 := rest.drop board.length
      if litAt "/thread/".data rest2 then
        let run := (rest2.drop 8).takeWhile Char.isDigit
        if run.isEmpty then none else some (board, run)
      else none
  else none

def searchSegThread : List Char → Option (List Char × List Char)
  | [] => trySegThreadAt []
  | c :: rest =>
    match trySegThreadAt (c :: rest) with
    | some r => some r
    | none => searchSegThread rest

/-! ## URL parsing

`urllib.parse.urlparse`: `netloc` is the text between a leading `//`
(after an optional `scheme:`) and the next `/`, `?` or `#`; `path` is what
follows it up to `?` or `#`.  (The rarely-used `;params` split of the last
path segment is not modelled; no caller here depends on it.) -/

def validSchemeChar (c : Char) : Bool :=
  c.isAlpha || c.isDigit || c == '+' || c == '-' || c == '.'

/-- Strip a leading `scheme:` if present. -/
def schemeRest (url : List Char) : List Char :=
  let pre := url.takeWhile (fun c => c != ':')
  if pre.length < url.length ∧ !pre.isEmpty ∧
      (pre.headD ' ').isAlpha ∧ pre.all validSchemeChar then
    url.drop (pre.length + 1)
  else url

def netlocEnd (c : Char) : Bool := c == '/' || c == '?' || c == '#'

def netloc_of (url : String) : String :=
  let rest := schemeRest url.data
  if litAt ['/', '/'] rest then
    String.mk ((rest.drop 2).takeWhile (fun c => !netlocEnd c))
  else ""

def path_of (url : String) : String :=
  let rest := schemeRest url.data
  let afterNetloc :=
    if litAt ['/', '/'] rest then (rest.drop 2).dropWhile (fun c => !netlocEnd c)
    else rest
  String.mk (afterNetloc.takeWhile (fun c => c != '?' && c != '#'))

/-! ## Provider table

`OEmbedService._load_providers`: a dict iterated in insertion order by
`_identify_provider`. -/

structure OEmbedProvider where
  name : String
  url : String
  endpoint : String
  schemes : List String
  requires_auth : Bool := false
  deriving DecidableEq, Repr

def youtubeProvider : OEmbedProvider :=
  { name := "YouTube", url := "https://www.youtube.com/",
    endpoint := "https://www.youtube.com/oembed",
    schemes := ["https://www.youtube.com/watch*", "https://www.youtube.com/v/*",
                "https://youtu.be/*", "https://www.youtube.com/shorts/*"] }

def vimeoProvider : OEmbedProvider :=
  { name := "Vimeo", url := "https://vimeo.com/",
    endpoint := "https://vimeo.com/api/oembed.json",
    schemes := ["https://vimeo.com/*", "https://player.vimeo.com/video/*"] }

def twitterProvider : OEmbedProvider :=
  { name := "X (Twitter)", url := "https://x.com/",
    endpoint := "https://publish.twitter.com/oembed",
    schemes := ["https://twitter.com/*/status/*", "https://x.com/*/status/*",
                "https://mobile.twitter.com/*/status/*"] }

def soundcloudProvider : OEmbedProvider :=
  { name := "SoundCloud", url := "https://soundcloud.com/",
    endpoint := "https://soundcloud.com/oembed",
    schemes := ["https://soundcloud.com/*", "https://m.soundcloud.com/*"] }

def instagramProvider : OEmbedProvider :=
  { name := "Instagram", url := "https://instagram.com/",
    endpoint := "https://graph.facebook.com/v18.0/instagram_oembed",
    schemes := ["https://www.instagram.com/p/*", "https://www.instagram.com/reel/*",
                "https://instagram.com/p/*", "https://instagram.com/reel/*"],
    requires_auth := true }

def tiktokProvider : OEmbedProvider :=
  { name := "TikTok", url := "https://www.tiktok.com/",
    endpoint := "https://www.tiktok.com/oembed",
    schemes := ["https://www.tiktok.com/@*/video/*", "https://vm.tiktok.com/*",
                "https://tiktok.com/@*/video/*"] }

def redditProvider : OEmbedProvider :=
  { name := "Reddit", url := "https://reddit.com/",
    endpoint := "https://www.reddit.com/oembed",
    schemes := ["https://reddit.com/r/*/comments/*", "https://www.reddit.com/r/*/comments/*",
                "https://old.reddit.com/r/*/comments/*"] }

def spotifyProvider : OEmbedProvider :=
  { name := "Spotify", url := "https://spotify.com/",
    endpoint := "https://open.spotify.com/oembed",
    schemes := ["https://open.spotify.com/track/*", "https://open.spotify.com/album/*",
                "https://open.spotify.com/playlist/*", "https://open.spotify.com/episode/*",
                "https://open.spotify.com/show/*"] }

def pinterestProvider : OEmbedProvider :=
  { name := "Pinterest", url := "https://pinterest.com/", endpoint := "",
    schemes := ["https://www.pinterest.com/pin/*", "https://pinterest.com/pin/*",
                "https://pin.it/*"] }

def providersList : List OEmbedProvider :=
  [youtubeProvider, vimeoProvider, twitterProvider, soundcloudProvider,
   instagramProvider, tiktokProvider, redditProvider, spotifyProvider,
   pinterestProvider]

def _identify_provider (url : String) : Option OEmbedProvider :=
  providersList.find? (fun p => p.schemes.any (fun s => schemeMatches s url))

/-- `provider.name.lower().replace(" ", "_")`. -/
def slugName (s : String) : String :=
  String.mk (s.data.map (fun c => if c == ' ' then '_' else lowerChar c))

/-! ## Platform ID extraction -/

def ytIdChar (c : Char) : Bool :=
  c != '&' && c != '\n' && c != '?' && c != '#'

/-- `_extract_youtube_id`: two patterns tried in order, each an
alternation of literals followed by `([^&\n?#]+)`. -/
def _extract_youtube_id (url : String) : Option String :=
  match searchAltRun ["youtube.com/watch?v=".data, "youtu.be/".data,
      "youtube.com/embed/".data] ytIdChar url.data with
  | some r => some (String.mk r)
  | none =>
    (searchAltRun ["youtube.com/shorts/".data] ytIdChar url.data).map String.mk

/-- `_extract_instagram_id`: `instagram\.com/(?:p|reel)/([^/?]+)`. -/
def _extract_instagram_id (url : String) : Option String :=
  (searchAltRun ["instagram.com/p/".data, "instagram.com/reel/".data]
      (fun c => c != '/' && c != '?') url.data).map String.mk

/-- `_extract_twitter_id`: `status/(\d+)`. -/
def _extract_twitter_id (url : String) : Option String :=
  (searchAltRun ["status/".data] Char.isDigit url.data).map String.mk

/-- `_extract_pinterest_id`: `pinterest\.com/pin/(\d+)`. -/
def _extract_pinterest_id (url : String) : Option String :=
  (searchAltRun ["pinterest.com/pin/".data] Char.isDigit url.data).map String.mk

/-- `_extract_tiktok_id`: three patterns tried in order. -/
def _extract_tiktok_id (url : String) : Option String :=
  match searchSegDigits "tiktok.com/@".data "/video/".data url.data with
  | some r => some (String.mk r)
  | none =>
    match searchAltRun ["vm.tiktok.com/".data] (fun c => c != '/' && c != '?') url.data with
    | some r => some (String.mk r)
    | none =>
      (searchAltRun ["tiktok.com/t/".data] (fun c => c != '/' && c != '?') url.data).map
        String.mk

/-- The suffix following the first occurrence of `needle` (nonempty). -/
def afterFirst (needle : List Char) : List Char → Option (List Char)
  | [] => none
  | c :: rest =>
    if litAt needle (c :: rest) then some ((c :: rest).drop needle.length)
    else afterFirst needle rest

def fbShareUPat : List Char → Option (List Char)
  | [] => none
  | c :: rest =>
    if litAt "facebook.com/share/".data (c :: rest) then
      match afterFirst "u=".data ((c :: rest).drop 19) with
      | some tail =>
        match afterFirst "%2F".data tail with
        | some tail2 =>
          let run := tail2.takeWhile Char.isDigit
          if run.isEmpty then none else some run
        | none => none
      | none => none
    else fbShareUPat rest

/-- `_extract_facebook_id`: eight patterns tried in order.  Pattern 6
(`facebook\.com/share/[^/]*/?.*?u=.*?%2F(\d+)`) is modelled with the lazy
quantifiers resolved to their first candidate occurrence (further
backtracking of `.*?` is not modelled; no claim depends on it). -/
def _extract_facebook_id (url : String) : Option String :=
  let u := url.data
  let pats : List (Option (List Char)) :=
    [searchSegDigits "facebook.com/".data "/posts/".data u,
     searchSegDigits "facebook.com/".data "/videos/".data u,
     searchAltRun ["facebook.com/photo.php?fbid=".data] Char.isDigit u,
     searchSeg2Digits "facebook.com/".data "/photos/".data u,
     searchAltRun ["facebook.com/story.php?story_fbid=".data] Char.isDigit u,
     fbShareUPat u,
     searchAltRun ["fbid=".data] Char.isDigit u,
     searchAltRun ["story_fbid=".data] Char.isDigit u]
  ((pats.find? Option.isSome).join).map String.mk

/-! ## Page metadata mining

`_extract_page_metadata` (lines 476–525): mine Open Graph
`<meta property="og:..." content="...">` tags; for a `title`,
`description` or `image` that is still missing *or falsy* fall back to the
Twitter Card `<meta name="twitter:..." content="...">` tag; for a title
still missing or falsy fall back to `<title>...</title>` (stripped).  All
matching is `re.IGNORECASE`; Open Graph and Twitter title/description
values are passed through `html.unescape`, the Twitter image value is not.
`html.unescape` is taken as a parameter `u`. -/

structure PageMeta where
  title : Option String := none
  description : Option String := none
  image : Option String := none
  author : Option String := none
  ogtype : Option String := none
  deriving DecidableEq, Repr

/-- Truthiness of the mined metadata dict: at least one key present. -/
def PageMeta.nonEmpty (m : PageMeta) : Bool :=
  m.title.isSome || m.description.isSome || m.image.isSome ||
    m.author.isSome || m.ogtype.isSome

/-- Group 1 of `re.search('<meta property="og:key" content="([^"]*)"', html,
re.IGNORECASE)`. -/
def minedOg (key : String) (html : List Char) : Option String :=
  (searchCap ("<meta property=\"og:" ++ key ++ "\" content=\"").data ['"'] '"' html).map
    String.mk

/-- Group 1 of `re.search('<meta name="twitter:key" content="([^"]*)"',
html, re.IGNORECASE)`. -/
def minedTw (key : String) (html : List Char) : Option String :=
  (searchCap ("<meta name=\"twitter:" ++ key ++ "\" content=\"").data ['"'] '"' html).map
    String.mk

/-- Group 1 of `re.search('<title>([^<]*)</title>', html, re.IGNORECASE)`. -/
def minedTitleTag (html : List Char) : Option String :=
  (searchCap "<title>".data "</title>".data '<' html).map String.mk

/-- The title after the Open Graph read and the Twitter Card fallback. -/
def titleFromOgTw (u : String → String) (html : List Char) : Option String :=
  let t0 := (minedOg "title" html).map u
  if mFalsy t0 then
    match minedTw "title" html with
    | some c => some (u c)
    | none => t0
  else t0

def pageTitleField (u : String → String) (html : List Char) : Option String :=
  let t1 := titleFromOgTw u html
  if mFalsy t1 then
    match minedTitleTag html with
    | some c => some (u (pyStrip c))
    | none => t1
  else t1

def pageDescField (u : String → String) (html : List Char) : Option String :=
  let d0 := (minedOg "description" html).map u
  if mFalsy d0 then
    match minedTw "description" html with
    | some c => some (u c)
    | none => d0
  else d0

def pageImageField (u : String → String) (html : List Char) : Option String :=
  let i0 := (minedOg "image" html).map u
  if mFalsy i0 then
    match minedTw "image" html with
    | some c => some c
    | none => i0
  else i0

def minePageMetadata (u : String → String) (html : String) : PageMeta :=
  { title := pageTitleField u html.data
    description := pageDescField u html.data
    image := pageImageField u html.data
    author := (minedOg "author" html.data).map u
    ogtype := (minedOg "type" html.data).map u }

/-! ## Extraction environment

The effectful primitives of `OEmbedService`, provided as a record so that
the extraction control flow is a pure function of the URL and the
environment: the standard oEmbed GET (`None` abstracts any network error,
non-2xx response or unparsable body — all collapsed to `None` by the
`try/except` in `_standard_oembed_request`), the page GET of
`_extract_page_metadata` (`None` abstracts an exception; otherwise the
body text), the `pin.it` HEAD redirect, and `html.unescape`.  The optional
`maxwidth`/`maxheight` request parameters only alter the outbound query
and are not modelled. -/

structure ExtractionEnv where
  standardOembed : String → String → Option OEmbedResp
  fetchPage : String → Option String
  headRedirect : String → Option String
  unescape : String → String

/-- `_standard_oembed_request`: on success the `platform`,
`provider_name` and `provider_url` fields are stamped from the matched
provider (the upstream response is untrusted for these). -/
def _standard_oembed_request (env : ExtractionEnv) (provider : OEmbedProvider)
    (url : String) : Option OEmbedResp :=
  (env.standardOembed provider.endpoint url).map (fun d =>
    { d with platform := some (slugName provider.name),
             provider_name := some provider.name,
             provider_url := some provider.url })

def _extract_page_metadata (env : ExtractionEnv) (url : String) : Option PageMeta :=
  (env.fetchPage url).map (minePageMetadata env.unescape)

/-! ### Synthesized embed cards

The platform card snippets mirror the conditional structure of the
source's f-string templates (which pieces appear when a value is truthy);
the inline CSS of the templates is elided. -/

def imgPiece (image : Option String) : String :=
  if optTruthy image then "<img src=\"" ++ image.getD "" ++ "\"/>" else ""

def textPiece (tag : String) (s : Option String) : String :=
  if optTruthy s then "<" ++ tag ++ ">" ++ s.getD "" ++ "</" ++ tag ++ ">" else ""

def instagramCard (image title : Option String) (url : String) : String :=
  "<div class=\"instagram-embed-custom\">" ++ imgPiece image ++
    textPiece "div" title ++ "<a href=\"" ++ url ++ "\">View on Instagram</a></div>"

def tiktokBlockquoteCard (videoId : Option String) (title description : String)
    (thumb : Option String) (url : String) : String :=
  "<blockquote class=\"tiktok-embed\" cite=\"" ++ url ++ "\" data-video-id=\"" ++
    videoId.getD "" ++ "\">" ++ imgPiece thumb ++ "<div>" ++ title ++ "</div><div>" ++
    description ++ "</div></blockquote>"

def eksisozlukCard (title description : String) (url : String) : String :=
  "<div class=\"eksisozluk-embed\">" ++ textPiece "div" (some title) ++
    textPiece "div" (some description) ++ "<a href=\"" ++ url ++ "\"></a></div>"

def fourchanCard (board title : String) (description : Option String) (url : String) :
    String :=
  "<div class=\"fourchan-embed\">4chan /" ++ board ++ "/<div>" ++ title ++ "</div>" ++
    textPiece "div" description ++ "<a href=\"" ++ url ++ "\"></a></div>"

def pinterestCard (pinId title : String) : String :=
  "<div class=\"pinterest-embed\"><iframe src=\"" ++
    "https://assets.pinterest.com/ext/embed.html?id=" ++ pinId ++ "\" title=\"" ++
    title ++ "\"></iframe></div>"

def tiktokCustomCard (thumb : Option String) (title description : Option String)
    (author : Option String) (url : String) : String :=
  "<div class=\"tiktok-embed-custom\">" ++ imgPiece thumb ++ textPiece "div" title ++
    textPiece "div" description ++ textPiece "div" author ++
    "<a href=\"" ++ url ++ "\">Watch on TikTok</a></div>"

def facebookCard (image : Option String) (isVideo : Bool) (title description : Option String) :
    String :=
  "<div class=\"facebook-embed\">" ++
    (if optTruthy image then
      imgPiece image ++ (if isVideo then "<svg/>" else "")
     else "") ++
    textPiece "div" title ++ textPiece "div" description ++
    (if isVideo then "Video content" else "Post content") ++ "</div>"

def genericCard (title description : String) (image : Option String)
    (domain url : String) : String :=
  "<div class=\"generic-embed\">" ++ textPiece "div" (some title) ++
    textPiece "div" (some description) ++ imgPiece image ++ "<span>" ++ domain ++
    "</span><a href=\"" ++ url ++ "\">Visit link</a></div>"

/-! ### Platform extractors -/

/-- `_extract_youtube` (lines 254–279): no video id ⇒ `None` before any
network call; otherwise the standard oEmbed result is required, enhanced
with `platform`/`platform_id` — a `None` oEmbed result yields `None`. -/
def _extract_youtube (env : ExtractionEnv) (url : String) : Option OEmbedResp :=
  match _extract_youtube_id url with
  | none => none
  | some vid =>
    match _standard_oembed_request env youtubeProvider url with
    | some d => some { d with platform := some "youtube", platform_id := some vid }
    | none => none

/-- `_extract_instagram` (lines 295–354). -/
def _extract_instagram (env : ExtractionEnv) (url : String) : Option OEmbedResp :=
  match _extract_instagram_id url with
  | none => none
  | some pid =>
    match _extract_page_metadata env url with
    | none => none
    | some m =>
      if m.nonEmpty then
        let title := if optTruthy m.title then some (env.unescape (m.title.getD "")) else none
        let description :=
          if optTruthy m.description then some (env.unescape (m.description.getD ""))
          else none
        some { type := "rich", platform := some "instagram", platform_id := some pid,
               provider_name := some "Instagram",
               provider_url := some "https://instagram.com/",
               title := title, description := description,
               thumbnail_url := m.image, author_name := m.author,
               html := some (instagramCard m.image title url) }
      else none

/-- `_extract_tiktok` (lines 361–430): standard oEmbed first; a result
with truthy embed HTML is returned with `platform := "tiktok"`; otherwise
fall back to page metadata and a synthesized blockquote card. -/
def _extract_tiktok (env : ExtractionEnv) (url : String) : Option OEmbedResp :=
  let fallback : Option OEmbedResp :=
    let videoId := _extract_tiktok_id url
    match _extract_page_metadata env url with
    | none => none
    | some m =>
      if m.nonEmpty then
        let title := m.title.getD "TikTok Video"
        let description := m.description.getD ""
        some { type := "rich", platform := some "tiktok", platform_id := videoId,
               provider_name := some "TikTok",
               provider_url := some "https://www.tiktok.com/",
               title := some title, description := some description,
               thumbnail_url := m.image, author_name := m.author,
               html := some (tiktokBlockquoteCard videoId title description m.image url) }
      else none
  match _standard_oembed_request env tiktokProvider url with
  | some d =>
    if optTruthy d.html then some { d with platform := some "tiktok" }
    else fallback
  | none => fallback

/-- `_extract_twitter` (lines 448–469): the standard oEmbed result with
`platform := "twitter"`; the status id, when the pattern matches, is
added as `platform_id`, and its absence is tolerated. -/
def _extract_twitter (env : ExtractionEnv) (url : String) : Option OEmbedResp :=
  match _standard_oembed_request env twitterProvider url with
  | none => none
  | some d =>
    match _extract_twitter_id url with
    | some tid => some { d with platform := some "twitter", platform_id := some tid }
    | none => some { d with platform := some "twitter" }

/-- `_extract_pinterest` (lines 650–699): `pin.it` URLs are first resolved
by a HEAD redirect; no pin id ⇒ `None`; then page metadata with an
official embed iframe. -/
def _extract_pinterest (env : ExtractionEnv) (url : String) : Option OEmbedResp :=
  let resolved := if strIn "pin.it" url then env.headRedirect url else some url
  match resolved with
  | none => none
  | some url2 =>
    match _extract_pinterest_id url2 with
    | none => none
    | some pid =>
      match _extract_page_metadata env url2 with
      | none => none
      | some m =>
        if m.nonEmpty then
          let title := m.title.getD "Pinterest Pin"
          some { type := "rich", platform := some "pinterest", platform_id := some pid,
                 provider_name := some "Pinterest",
                 provider_url := some "https://pinterest.com/",
                 title := some title, description := some (m.description.getD ""),
                 thumbnail_url := m.image,
                 html := some (pinterestCard pid title) }
        else none

/-- `_extract_eksisozluk` (lines 561–602). -/
def _extract_eksisozluk (env : ExtractionEnv) (url : String) : Option OEmbedResp :=
  match _extract_page_metadata env url with
  | none => none
  | some m =>
    if m.nonEmpty then
      let title := m.title.getD ""
      let description := m.description.getD ""
      some { type := "rich", platform := some "eksisozluk",
             provider_name := some "eksi sozluk",
             provider_url := some "https://eksisozluk.com/",
             title := some title, description := some description,
             thumbnail_url := m.image,
             html := some (eksisozlukCard title description url) }
    else none

/-- `_extract_4chan` (lines 604–648): the board/thread pattern is
required; metadata is best-effort, with fixed fallbacks for a missing or
falsy title and a missing metadata dict. -/
def _extract_4chan (env : ExtractionEnv) (url : String) : Option OEmbedResp :=
  match searchSegThread url.data with
  | none => none
  | some (board, tid) =>
    let mopt := _extract_page_metadata env url
    let defTitle := "/" ++ String.mk board ++ "/ thread #" ++ String.mk tid
    let title := match mopt with
      | some m => if !m.nonEmpty || mFalsy m.title then defTitle else m.title.getD ""
      | none => defTitle
    let description := match mopt with
      | some m =>
        if m.nonEmpty then m.description else some "4chan post (may no longer be available)"
      | none => some "4chan post (may no longer be available)"
    some { type := "rich", platform := some "4chan", provider_name := some "4chan",
           provider_url := some "https://4chan.org/",
           title := some title, description := description,
           html := some (fourchanCard (String.mk board) title description url) }

/-- `_extract_tiktok_custom` (lines 707–800). -/
def _extract_tiktok_custom (env : ExtractionEnv) (url : String) : Option OEmbedResp :=
  match _extract_tiktok env url with
  | some r =>
    if optTruthy r.html then some r
    else
      let mopt := _extract_page_metadata env url
      let title := match mopt with
        | some m => if m.nonEmpty then pyOr r.title (m.title.getD "TikTok Video")
                    else pyOr r.title "TikTok Video"
        | none => pyOr r.title "TikTok Video"
      let description := match mopt with
        | some m => if m.nonEmpty then pyOr r.description (m.description.getD "")
                    else pyOr r.description ""
        | none => pyOr r.description ""
      let thumb := match mopt with
        | some m => if m.nonEmpty then pyOrOpt r.thumbnail_url m.image else r.thumbnail_url
        | none => r.thumbnail_url
      some { r with
        html := some (tiktokCustomCard thumb (some title) (some description)
          r.author_name url),
        type := "rich" }
  | none =>
    match _extract_page_metadata env url with
    | none => none
    | some m =>
      if m.nonEmpty then
        let title := m.title.getD "TikTok Video"
        let description := m.description.getD ""
        some { type := "rich", platform := some "tiktok",
               provider_name := some "TikTok", provider_url := some "https://tiktok.com/",
               title := some title, description := some description,
               thumbnail_url := m.image,
               html := some (tiktokCustomCard m.image (some title) (some description)
                 none url) }
      else none

/-- `_extract_facebook_custom` (lines 802–882): the facebook id is
extracted but its absence is tolerated. -/
def _extract_facebook_custom (env : ExtractionEnv) (url : String) : Option OEmbedResp :=
  let facebookId := _extract_facebook_id url
  match _extract_page_metadata env url with
  | none => none
  | some m =>
    if m.nonEmpty then
      let title := m.title.getD "Facebook Post"
      let description := m.description.getD ""
      let isVideo := strIn "video" (lowerStr url) || strIn "video" (lowerStr title) ||
        (m.ogtype == some "video")
      some { type := "rich", platform := some "facebook", platform_id := facebookId,
             provider_name := some "Facebook",
             provider_url := some "https://facebook.com/",
             title := some title, description := some description,
             thumbnail_url := m.image,
             html := some (facebookCard m.image isVideo (some title) (some description)) }
    else none

/-- `_fallback_extraction` (lines 905–944): generic Open-Graph/Twitter-Card
card against the raw URL. -/
def _fallback_extraction (env : ExtractionEnv) (url : String) : Option OEmbedResp :=
  match _extract_page_metadata env url with
  | none => none
  | some m =>
    if m.nonEmpty then
      let title := m.title.getD ""
      let description := m.description.getD ""
      let domain := netloc_of url
      some { type := "rich", platform := some "generic",
             provider_name := some domain, provider_url := some ("https://" ++ domain),
             title := some title, description := some description,
             thumbnail_url := m.image,
             html := some (genericCard title description m.image domain url) }
    else none

/-- The branch conditions of `_extract_custom_platform` (lines 527–559),
in source order. -/
def customBranchCond (url : String) : Bool :=
  let domain := lowerStr (netloc_of url)
  let urlPath := lowerStr (path_of url)
  strIn "eksisozluk.com" domain ||
  (strIn "4chan.org" domain || strIn "4channel.org" domain) ||
  (strIn "pinterest.com" domain || strIn "pin.it" domain) ||
  ((strIn "tiktok.com" domain || strIn "vm.tiktok.com" domain) &&
    (strIn "/video/" urlPath || strIn "@" urlPath)) ||
  ((strIn "facebook.com" domain || strIn "fb.com" domain) &&
    (strIn "/share/" urlPath || strIn "/posts/" urlPath || strIn "/photo" urlPath ||
     strIn "/video" urlPath || strIn "/story" urlPath))

/-- `_extract_custom_platform` (lines 527–559): domain-dispatched custom
handlers with the generic fallback as the last resort. -/
def _extract_custom_platform (env : ExtractionEnv) (url : String) : Option OEmbedResp :=
  let domain := lowerStr (netloc_of url)
  let urlPath := lowerStr (path_of url)
  if strIn "eksisozluk.com" domain then _extract_eksisozluk env url
  else if strIn "4chan.org" domain || strIn "4channel.org" domain then
    _extract_4chan env url
  else if strIn "pinterest.com" domain || strIn "pin.it" domain then
    _extract_pinterest env url
  else if (strIn "tiktok.com" domain || strIn "vm.tiktok.com" domain) &&
      (strIn "/video/" urlPath || strIn "@" urlPath) then
    _extract_tiktok_custom env url
  else if (strIn "facebook.com" domain || strIn "fb.com" domain) &&
      (strIn "/share/" urlPath || strIn "/posts/" urlPath || strIn "/photo" urlPath ||
       strIn "/video" urlPath || strIn "/story" urlPath) then
    _extract_facebook_custom env url
  else _fallback_extraction env url

/-- `get_oembed_data` (lines 171–207): no provider ⇒ custom-platform
extraction; the five special providers dispatch to their bespoke
extractors, whose result — including `None` — is returned as-is; other
providers use the standard protocol.  (The `except` branch also routes to
custom-platform extraction, but every strategy function catches its own
exceptions and returns `None` instead of raising.) -/
def get_oembed_data (env : ExtractionEnv) (url : String) : Option OEmbedResp :=
  match _identify_provider url with
  | none => _extract_custom_platform env url
  | some p =>
    if p.name == "YouTube" then _extract_youtube env url
    else if p.name == "Instagram" then _extract_instagram env url
    else if p.name == "Pinterest" then _extract_pinterest env url
    else if p.name == "TikTok" then _extract_tiktok env url
    else if p.name == "X (Twitter)" then _extract_twitter env url
    else _standard_oembed_request env p url

/-- The custom-platform domain list of `is_supported_url` (lines 961–991). -/
def customPlatforms : List String :=
  ["eksisozluk.com", "4chan.org", "4channel.org", "facebook.com", "fb.com",
   "pinterest.com", "pin.it", "tiktok.com", "vm.tiktok.com"]

/-- `is_supported_url` (lines 961–991): provider match, else substring
check of the custom-platform domains against the lowercased netloc, else
an additional Facebook check (against the raw URL, not the path). -/
def is_supported_url (url : String) : Bool :=
  if (_identify_provider url).isSome then true
  else
    let domain := lowerStr (netloc_of url)
    if customPlatforms.any (fun p => strIn p domain) then true
    else if strIn "facebook.com" domain &&
        (strIn "/share/" url || strIn "/posts/" url || strIn "/photo" url ||
         strIn "/video" url) then true
    else false

/-! ## The preview endpoint

`preview_oembed` (`backend/app/api/endpoints/oembed.py`, lines 82–176):
read-through cache, support check, extraction, write-through cache. -/

structure OEmbedPreviewResp where
  url : String
  is_supported : Bool
  provider : Option String := none
  oembed_data : Option OEmbedResp := none
  cached : Bool := false
  error : Option String := none
  deriving DecidableEq, Repr

def preview_oembed (env : ExtractionEnv) (db : List OEmbedCacheRow) (now : PyDateTime)
    (url : String) : OEmbedPreviewResp × List OEmbedCacheRow :=
  match cacheRead db url now with
  | (some e, db2) =>
    ({ url := url, is_supported := true, provider := e.platform,
       oembed_data := some e.oembed_response, cached := true }, db2)
  | (none, _) =>
    if !is_supported_url url then
      ({ url := url, is_supported := false,
         error := some "URL not supported by any oEmbed provider" }, db)
    else
      match get_oembed_data env url with
      | none =>
        ({ url := url, is_supported := true,
           error := some "Failed to extract oEmbed data" }, db)
      | some d =>
        ({ url := url, is_supported := true, provider := d.provider_name,
           oembed_data := some d, cached := false },
         db ++ [mkCacheEntry url now d])

/-! ## Sample environments

Concrete environments used to evaluate the model: a fully cooperative one
(every upstream call succeeds) and one in which every standard oEmbed call
fails while page fetches still succeed.  `unescape := id` agrees with
`html.unescape` on all entity-free strings involved. -/

def coopEnv : ExtractionEnv :=
  { standardOembed := fun _ _ => some { type := "video", title := some "T" },
    fetchPage := fun _ => some
      "<meta property=\"og:title\" content=\"PageT\"><meta property=\"og:image\" content=\"https://img.example/i.png\">",
    headRedirect := fun u => some u,
    unescape := id }

def oembedDownEnv : ExtractionEnv :=
  { standardOembed := fun _ _ => none,
    fetchPage := fun _ => some "<title>t</title>",
    headRedirect := fun _ => none,
    unescape := id }

/-! ## Cache lemmas -/

theorem cacheReadAux_append (now : PyDateTime) (h : String) (db : List OEmbedCacheRow)
    (e0 : OEmbedCacheRow)
    (hOld : ∀ e ∈ db, (e.url_hash == h && PyDateTime.before now e.expires_at) = false)
    (hHit : (e0.url_hash == h && PyDateTime.before now e0.expires_at) = true) :
    cacheReadAux now h (db ++ [e0]) = (some e0, db ++ [bumpRow now e0]) := by
  induction db with
  | nil => simp [cacheReadAux, hHit]
  | cons a t ih =>
    have ha := hOld a (List.mem_cons_self a t)
    have ih' := ih (fun e he => hOld e (List.mem_cons_of_mem _ he))
    simp only [List.cons_append, cacheReadAux, ha, Bool.false_eq_true, if_false,
      List.append_eq, ih']

theorem bumpRow_hash (now : PyDateTime) (e : OEmbedCacheRow) :
    (bumpRow now e).url_hash = e.url_hash := rfl

theorem cacheReadN_append (url : String) (now : PyDateTime) (k : Nat)
    (db : List OEmbedCacheRow) (e0 : OEmbedCacheRow)
    (hOld : ∀ e ∈ db,
      (e.url_hash == sha256Hex url && PyDateTime.before now e.expires_at) = false)
    (hHit : (e0.url_hash == sha256Hex url && PyDateTime.before now e0.expires_at) = true) :
    cacheReadN url now k (db ++ [e0]) =
      db ++ [{ e0 with
               hit_count := e0.hit_count + k
               last_hit := if k = 0 then e0.last_hit else some now }] := by
  induction k with
  | zero => rfl
  | succ n ih =>
    have hstep := cacheReadAux_append now (sha256Hex url) db
      { e0 with
        hit_count := e0.hit_count + n
        last_hit := if n = 0 then e0.last_hit else some now } hOld (by simpa using hHit)
    simp only [cacheReadN, ih, cacheRead, hstep]
    simp [bumpRow, Nat.add_assoc]

/-- Claim C5: an entry whose `expires_at` lies strictly in the past at read
time is never returned by the cache read, regardless of whether the
periodic sweep has purged it: the hit query filters on
`expires_at > utcnow()`. -/
theorem claim_C5_thm (db : List OEmbedCacheRow) (url : String) (now : PyDateTime)
    (e : OEmbedCacheRow) (hexp : PyDateTime.before e.expires_at now = true) :
    (cacheRead db url now).1 ≠ some e := by
  unfold cacheRead
  induction db with
  | nil => simp [cacheReadAux]
  | cons a t ih =>
    simp only [cacheReadAux]
    split
    case isTrue hcond =>
      intro hc
      simp only [Option.some.injEq] at hc
      subst hc
      rw [Bool.and_eq_true] at hcond
      have h3 := PyDateTime.before_asymm hcond.2
      rw [hexp] at h3
      exact Bool.true_eq_false.mp h3
    case isFalse hcond =>
      simpa using ih

/-- Witness for C5 at a concrete expired row. -/
theorem claim_C5_wit :
    PyDateTime.before ⟨2025, 1, 1, 10, 0, 0, 0⟩ ⟨2025, 1, 2, 0, 0, 0, 0⟩ = true ∧
    (cacheRead [{ url_hash := "h"
                  original_url := "u"
                  oembed_response := { type := "link" }
                  status_code := 200
                  platform := none
                  expires_at := ⟨2025, 1, 1, 10, 0, 0, 0⟩ }]
        "u" ⟨2025, 1, 2, 0, 0, 0, 0⟩).1 ≠
      some { url_hash := "h"
             original_url := "u"
             oembed_response := { type := "link" }
             status_code := 200
             platform := none
             expires_at := ⟨2025, 1, 1, 10, 0, 0, 0⟩ } :=
  ⟨by decide,
   claim_C5_thm _ "u" _ _ (by decide)⟩

/-- Claim C6: a cache put (`mkCacheEntry` appended on a successful
extraction) followed by `k` reads and one more read of the same URL: every
read returns the stored payload unchanged (the serialized response
round-trips), and each read increments the row's `hit_count` by exactly
one, so the (k+1)-st read sees `hit_count = k` and leaves `hit_count =
k + 1`.  The older same-hash rows are required to be expired at read time
(the fresh write implies the previous entry for that hash had lapsed), and
the read must occur before the new entry's own expiry. -/
theorem claim_C6_thm (db : List OEmbedCacheRow) (now tread : PyDateTime) (url : String)
    (resp : OEmbedResp) (k : Nat)
    (hOld : ∀ e ∈ db, e.url_hash = sha256Hex url →
      PyDateTime.before tread e.expires_at = false)
    (hFresh : PyDateTime.before tread (endOfDayStamp now) = true) :
    cacheRead (cacheReadN url tread k (db ++ [mkCacheEntry url now resp])) url tread =
      (some { mkCacheEntry url now resp with
              hit_count := k
              last_hit := if k = 0 then none else some tread },
       db ++ [{ mkCacheEntry url now resp with
                hit_count := k + 1
                last_hit := some tread }]) := by
  have hOld' : ∀ e ∈ db,
      (e.url_hash == sha256Hex url && PyDateTime.before tread e.expires_at) = false := by
    intro e he
    cases hcase : (e.url_hash == sha256Hex url) with
    | false => simp [hcase]
    | true => simp [hcase, hOld e he (beq_iff_eq.mp hcase)]
  have hHit : ((mkCacheEntry url now resp).url_hash == sha256Hex url &&
      PyDateTime.before tread (mkCacheEntry url now resp).expires_at) = true := by
    simp [mkCacheEntry, hFresh]
  rw [cacheReadN_append url tread k db _ hOld' hHit]
  unfold cacheRead
  rw [cacheReadAux_append tread (sha256Hex url) db _ hOld' (by simpa using hHit)]
  simp [bumpRow, mkCacheEntry]

/-- Witness for C6: empty table, one put, one prior read. -/
theorem claim_C6_wit :
    cacheRead (cacheReadN "u" ⟨2025, 1, 1, 1, 0, 0, 0⟩ 1
        ([] ++ [mkCacheEntry "u" ⟨2025, 1, 1, 0, 0, 0, 0⟩ { type := "link" }]))
        "u" ⟨2025, 1, 1, 1, 0, 0, 0⟩ =
      (some { mkCacheEntry "u" ⟨2025, 1, 1, 0, 0, 0, 0⟩ { type := "link" } with
              hit_count := 1
              last_hit := if 1 = 0 then none else some ⟨2025, 1, 1, 1, 0, 0, 0⟩ },
       [] ++ [{ mkCacheEntry "u" ⟨2025, 1, 1, 0, 0, 0, 0⟩ { type := "link" } with
                hit_count := 1 + 1
                last_hit := some ⟨2025, 1, 1, 1, 0, 0, 0⟩ }]) :=
  claim_C6_thm [] _ _ "u" { type := "link" } 1 (by simp) (by decide)

/-- Claim C3: on a cache miss with a successful extraction, `preview_oembed`
appends exactly one entry, keyed by the SHA-256 hex digest of the exact
input URL string and expiring at `utcnow().replace(hour=23, minute=59,
second=59)` — the end of the current UTC day (the `microsecond` field is
kept), not a fixed TTL after creation.  Two URLs differing only in a
tracking query parameter hash — and are therefore cached — separately,
and the write-to-expiry gap depends on the time of day, so it is not a
constant TTL. -/
theorem claim_C3_thm (env : ExtractionEnv) (db : List OEmbedCacheRow) (now : PyDateTime)
    (url : String) (d : OEmbedResp)
    (hmiss : (cacheRead db url now).1 = none)
    (hsupp : is_supported_url url = true)
    (hext : get_oembed_data env url = some d) :
    ((preview_oembed env db now url).2 = db ++ [mkCacheEntry url now d]) ∧
    (mkCacheEntry url now d).url_hash = sha256Hex url ∧
    (mkCacheEntry url now d).expires_at =
      { now with hour := 23, minute := 59, second := 59 } ∧
    sha256Hex "https://example.com/article?id=7" ≠
      sha256Hex "https://example.com/article?id=7&utm_source=x" ∧
    (∃ t1 t2 : PyDateTime,
      secondsOfDay (endOfDayStamp t1) - secondsOfDay t1 ≠
        secondsOfDay (endOfDayStamp t2) - secondsOfDay t2) := by
  refine ⟨?_, rfl, rfl, by decide, ⟨⟨0, 0, 0, 0, 0, 0, 0⟩, ⟨0, 0, 0, 12, 0, 0, 0⟩, by decide⟩⟩
  unfold preview_oembed
  rcases hc : cacheRead db url now with ⟨r, db2⟩
  rw [hc] at hmiss
  simp only at hmiss
  subst hmiss
  simp [hsupp, hext]

/-- The Vimeo response stamped by `_standard_oembed_request` under
`coopEnv`, used by the C3 witness. -/
def vimeoStampedResp : OEmbedResp :=
  { type := "video"
    title := some "T"
    platform := some "vimeo"
    provider_name := some "Vimeo"
    provider_url := some "https://vimeo.com/" }

/-- Witness for C3: empty table, a Vimeo URL extracted through the
standard protocol under a cooperative environment. -/
theorem claim_C3_wit :
    ((preview_oembed coopEnv [] ⟨2025, 1, 1, 0, 0, 0, 0⟩ "https://vimeo.com/1").2 =
      [] ++ [mkCacheEntry "https://vimeo.com/1" ⟨2025, 1, 1, 0, 0, 0, 0⟩ vimeoStampedResp]) ∧
    (mkCacheEntry "https://vimeo.com/1" ⟨2025, 1, 1, 0, 0, 0, 0⟩ vimeoStampedResp).url_hash =
      sha256Hex "https://vimeo.com/1" ∧
    (mkCacheEntry "https://vimeo.com/1" ⟨2025, 1, 1, 0, 0, 0, 0⟩ vimeoStampedResp).expires_at =
      { PyDateTime.mk 2025 1 1 0 0 0 0 with hour := 23, minute := 59, second := 59 } ∧
    sha256Hex "https://example.com/article?id=7" ≠
      sha256Hex "https://example.com/article?id=7&utm_source=x" ∧
    (∃ t1 t2 : PyDateTime,
      secondsOfDay (endOfDayStamp t1) - secondsOfDay t1 ≠
        secondsOfDay (endOfDayStamp t2) - secondsOfDay t2) :=
  claim_C3_thm coopEnv [] ⟨2025, 1, 1, 0, 0, 0, 0⟩ "https://vimeo.com/1" vimeoStampedResp
    rfl (by decide) (by decide)

/-! ## Claim C2: status polling for unknown task ids -/

/-- Counterexample to claim C2: `get_task_status` on a task id absent from
the result backend reports status `PENDING` — byte-identical to the status
of a genuinely pending task — because Celery's `AsyncResult` treats
unknown ids as implicitly pending; there is no distinguishable
"not found" result (the `'UNKNOWN'` status arises only from the `except`
branch, which a missing id does not trigger). -/
theorem claim_C2_cex :
    (get_task_status [("known-task", { state := "PENDING" })] "missing-task").status =
      "PENDING" ∧
    (get_task_status [("known-task", { state := "PENDING" })] "missing-task").status =
      (get_task_status [("known-task", { state := "PENDING" })] "known-task").status ∧
    get_task_status [("known-task", { state := "PENDING" })] "missing-task" =
      { task_id := "missing-task"
        status := "PENDING"
        result := none
        info := none
        traceback := none
        ready := false
        successful := false
        failed := false } := by
  decide

/-- Claim C2 as amended: for every task id unknown to the result store,
`get_task_status` reports exactly the shape of a pending task —
status `PENDING`, no result, not ready — with no distinguishable
"not found" marker. -/
theorem claim_C2_thm (backend : List (String × CeleryTaskMeta)) (tid : String)
    (habsent : backend.find? (fun kv => kv.1 == tid) = none) :
    get_task_status backend tid =
      { task_id := tid
        status := "PENDING"
        result := none
        info := none
        traceback := none
        ready := false
        successful := false
        failed := false } := by
  unfold get_task_status asyncResultMeta
  rw [habsent]
  rfl

/-- Witness for the amended C2 at the empty result store. -/
theorem claim_C2_wit :
    get_task_status [] "some-task" =
      { task_id := "some-task"
        status := "PENDING"
        result := none
        info := none
        traceback := none
        ready := false
        successful := false
        failed := false } :=
  claim_C2_thm [] "some-task" rfl

/-! ## Claim C4: retry exhaustion and backoff -/

theorem retryIterate (m : Nat) : ∀ k, k ≤ m →
    (processOembedRetryStep m)^[k] ⟨0, .active⟩ =
      if k = 0 then ⟨0, .active⟩ else ⟨k, .waiting (min 300 (2 ^ (k - 1) * 60))⟩ := by
  intro k
  induction k with
  | zero => intro _; simp
  | succ n ih =>
    intro h
    rw [Function.iterate_succ_apply', ih (by omega)]
    by_cases hn : n = 0
    · subst hn
      have hm : 0 < m := by omega
      simp [processOembedRetryStep, hm]
    · have hnm : n < m := by omega
      simp [hn, processOembedRetryStep, hnm]

/-- Counterexample to claim C4: with `max_retries = 3` (the decorator
value), a task that has already failed 3 times — `max_retries` times — is
*not* terminal: it sits waiting for a fourth scheduled attempt (delay
`min(300, 2^2*60) = 240`), and only that fourth failing attempt makes it
give up.  So "failed max_retries times ⟹ terminal, no further execution
attempt" is false for this code. -/
theorem claim_C4_cex :
    ((processOembedRetryStep 3)^[3] ⟨0, .active⟩ = ⟨3, .waiting 240⟩) ∧
    ((processOembedRetryStep 3)^[3] ⟨0, .active⟩).phase ≠ TaskRunPhase.exhausted ∧
    (processOembedRetryStep 3 ((processOembedRetryStep 3)^[3] ⟨0, .active⟩)).phase =
      TaskRunPhase.exhausted := by
  decide

/-- Claim C4 as amended: a task gives up terminally after `max_retries + 1`
failed attempts (the initial attempt plus `max_retries` retries) and is
never executed again (the given-up state is absorbing); the retry after
the attempt with retry counter `k < max_retries` is scheduled with the
exponential, capped backoff `min(300, 2^k * 60)` seconds. -/
theorem claim_C4_thm :
    (∀ m : Nat,
      ((processOembedRetryStep m)^[m + 1] ⟨0, .active⟩).phase = TaskRunPhase.exhausted) ∧
    (∀ (m : Nat) (s : OEmbedTaskState),
      s.phase = TaskRunPhase.exhausted → processOembedRetryStep m s = s) ∧
    (∀ m k : Nat, k < m →
      processOembedRetryStep m ⟨k, .active⟩ =
        ⟨k + 1, .waiting (min 300 (2 ^ k * 60))⟩) := by
  refine ⟨?_, ?_, ?_⟩
  · intro m
    rw [Function.iterate_succ_apply', retryIterate m m le_rfl]
    by_cases hm : m = 0
    · subst hm; simp [processOembedRetryStep]
    · simp [hm, processOembedRetryStep]
  · intro m s h
    cases s with
    | mk r p => cases p <;> simp_all [processOembedRetryStep]
  · intro m k h
    simp [processOembedRetryStep, h]

/-- Witness for the amended C4 at `max_retries = 3`. -/
theorem claim_C4_wit :
    ((processOembedRetryStep 3)^[4] ⟨0, .active⟩).phase = TaskRunPhase.exhausted ∧
    processOembedRetryStep 3 ⟨3, .exhausted⟩ = ⟨3, .exhausted⟩ ∧
    processOembedRetryStep 3 ⟨2, .active⟩ = ⟨3, .waiting (min 300 (2 ^ 2 * 60))⟩ :=
  ⟨claim_C4_thm.1 3, claim_C4_thm.2.1 3 ⟨3, .exhausted⟩ rfl,
   claim_C4_thm.2.2 3 2 (by omega)⟩

/-! ## Claim C8: rate limiter backpressure -/

/-- Counterexample to claim C8: with the window full of fresh timestamps,
`_check_rate_limit` sleeps exactly one second and returns; one second
later the sliding window still holds 60 timestamps, i.e. the caller
proceeds while still at the ceiling — the code does *not* wait until the
call no longer exceeds the ceiling. -/
theorem claim_C8_cex :
    (check_rate_limit 0 (List.replicate 60 (0 : Int)) 60).2 = 1 ∧
    60 ≤ ((check_rate_limit 1 (List.replicate 60 (0 : Int)) 60).1).length := by
  decide

/-- Claim C8 as amended: timestamps 60 seconds or older are dropped from
the window before the check; a call under the ceiling is not delayed at
all; and an over-ceiling call is delayed by a single fixed 1-second sleep
(never more, and never rejected with an error — the function always
returns normally). -/
theorem claim_C8_thm (now : Int) (ts : List Int) :
    ((check_rate_limit now ts 60).1 = ts.filter (fun t => now - t < 60)) ∧
    ((check_rate_limit now ts 60).1.length < 60 → (check_rate_limit now ts 60).2 = 0) ∧
    (check_rate_limit now ts 60).2 ≤ 1 := by
  refine ⟨rfl, ?_, ?_⟩
  · intro h
    simp only [check_rate_limit] at h ⊢
    rw [if_neg (by omega)]
  · simp only [check_rate_limit]
    split <;> omega

/-- Witness for the amended C8: a single fresh timestamp — no delay. -/
theorem claim_C8_wit :
    (check_rate_limit 0 [(-10 : Int)] 60).2 = 0 :=
  (claim_C8_thm 0 [(-10 : Int)]).2.1 (by decide)

/-! ## Claim C10: the custom-platform substring check -/

/-- Claim C10: any URL whose (lowercased) netloc contains one of the fixed
custom-platform strings as a substring is reported supported, whatever the
path and whether or not any provider pattern matches; and the whole of
`is_supported_url` is equivalent to provider-match-or-substring-check, so
the trailing `facebook.com` path-specific branch can never change the
result (its guard implies the substring check already returned `true`). -/
theorem claim_C10_thm :
    (∀ url : String,
      customPlatforms.any (fun p => strIn p (lowerStr (netloc_of url))) = true →
      is_supported_url url = true) ∧
    (∀ url : String, is_supported_url url =
      ((_identify_provider url).isSome ||
        customPlatforms.any (fun p => strIn p (lowerStr (netloc_of url))))) := by
  constructor
  · intro url h
    cases hi : (_identify_provider url).isSome <;> simp [is_supported_url, hi, h]
  · intro url
    cases hi : (_identify_provider url).isSome with
    | true => simp [is_supported_url, hi]
    | false =>
      by_cases hc : customPlatforms.any (fun p => strIn p (lowerStr (netloc_of url))) = true
      · simp [is_supported_url, hi, hc]
      · have hc2 : customPlatforms.any (fun p => strIn p (lowerStr (netloc_of url))) =
            false := Bool.eq_false_iff.mpr hc
        have hfb : strIn "facebook.com" (lowerStr (netloc_of url)) = false := by
          have h2 := hc2
          simp only [customPlatforms, List.any_cons, List.any_nil,
            Bool.or_eq_false_iff] at h2
          exact h2.2.2.2.1
        simp [is_supported_url, hi, hc2, hfb]

/-- Witness for C10: `"fb.com"` occurs as an inner substring of the
unrelated host `cafb.community`, so the URL is reported supported. -/
theorem claim_C10_wit :
    is_supported_url "https://cafb.community/anything" = true :=
  claim_C10_thm.1 "https://cafb.community/anything" (by decide)

/-! ## Claim C7: metadata fallback order -/

/-- A page whose Open Graph title tag is present but empty and whose
Twitter Card title is `"X"`. -/
def c7Html : String :=
  "<meta property=\"og:title\" content=\"\"><meta name=\"twitter:title\" content=\"X\">"

/-- Counterexample to claim C7: the Open Graph source *is* present
(`og:title` yields the empty string), yet the extractor's falsy test
(`if not metadata.get("title")`) lets the Twitter Card value overwrite it:
the final title is `"X"`.  An earlier source *is* overridden by a later
one when its value is empty, so the claim's "never overridden" is false.
(`html.unescape` is the identity on the two entity-free values involved,
so `u := id` reproduces the code's behaviour on this page.) -/
theorem claim_C7_cex :
    minedOg "title" c7Html.data = some "" ∧
    minedTw "title" c7Html.data = some "X" ∧
    (minePageMetadata id c7Html).title = some "X" := by
  decide

/-- Claim C7 as amended: Open Graph is read first; a field whose value is
*missing or empty* (Python falsy) falls back to the Twitter Card tag, and
a title still missing or empty after both falls back to the stripped
`<title>` element; an earlier source with a *nonempty* value is never
overridden.  (The Twitter image fallback, unlike the others, is not
HTML-unescaped.) -/
theorem claim_C7_thm :
    (∀ (u : String → String) (html : List Char) (t : String),
      minedOg "title" html = some t → (u t).isEmpty = false →
      pageTitleField u html = some (u t)) ∧
    (∀ (u : String → String) (html : List Char) (t : String),
      mFalsy ((minedOg "title" html).map u) = true → minedTw "title" html = some t →
      (u t).isEmpty = false → pageTitleField u html = some (u t)) ∧
    (∀ (u : String → String) (html : List Char) (t : String),
      mFalsy (titleFromOgTw u html) = true → minedTitleTag html = some t →
      pageTitleField u html = some (u (pyStrip t))) ∧
    (∀ (u : String → String) (html : List Char) (t : String),
      minedOg "description" html = some t → (u t).isEmpty = false →
      pageDescField u html = some (u t)) ∧
    (∀ (u : String → String) (html : List Char) (t : String),
      mFalsy ((minedOg "description" html).map u) = true →
      minedTw "description" html = some t → pageDescField u html = some (u t)) ∧
    (∀ (u : String → String) (html : List Char) (t : String),
      minedOg "image" html = some t → (u t).isEmpty = false →
      pageImageField u html = some (u t)) ∧
    (∀ (u : String → String) (html : List Char) (t : String),
      mFalsy ((minedOg "image" html).map u) = true → minedTw "image" html = some t →
      pageImageField u html = some t) ∧
    (∀ (u : String → String) (html : String),
      (minePageMetadata u html).title = pageTitleField u html.data ∧
      (minePageMetadata u html).description = pageDescField u html.data ∧
      (minePageMetadata u html).image = pageImageField u html.data) := by
  refine ⟨?_, ?_, ?_, ?_, ?_, ?_, ?_, fun u html => ⟨rfl, rfl, rfl⟩⟩
  · intro u html t h1 h2
    simp [pageTitleField, titleFromOgTw, mFalsy, optTruthy, h1, h2]
  · intro u html t h1 h2 h3
    have h4 : mFalsy (some (u t)) = false := by simp [mFalsy, optTruthy, h3]
    simp only [pageTitleField, titleFromOgTw]
    simp [h1, h2, h4]
  · intro u html t h1 h2
    simp [pageTitleField, h1, h2]
  · intro u html t h1 h2
    simp [pageDescField, mFalsy, optTruthy, h1, h2]
  · intro u html t h1 h2
    simp [pageDescField, h1, h2]
  · intro u html t h1 h2
    simp [pageImageField, mFalsy, optTruthy, h1, h2]
  · intro u html t h1 h2
    simp [pageImageField, h1, h2]

/-- Witness for the amended C7: a nonempty Open Graph title wins. -/
theorem claim_C7_wit :
    pageTitleField id "<meta property=\"og:title\" content=\"GoodT\">".data =
      some (id "GoodT") :=
  claim_C7_thm.1 id _ "GoodT" (by decide) (by decide)

/-! ## Claim C1: fallthrough of the strategy chain -/

/-- Counterexample to claim C1: a URL that matches the YouTube provider,
in an environment where every standard oEmbed call fails but page fetches
succeed (so the generic fallback *would* succeed): the platform-specific
extractor yields no result, and `get_oembed_data` returns that `None`
directly — the generic fallback is never attempted before extraction is
reported failed. -/
theorem claim_C1_cex :
    _identify_provider "https://www.youtube.com/watch?v=abc" = some youtubeProvider ∧
    _extract_youtube oembedDownEnv "https://www.youtube.com/watch?v=abc" = none ∧
    (_fallback_extraction oembedDownEnv "https://www.youtube.com/watch?v=abc").isSome =
      true ∧
    get_oembed_data oembedDownEnv "https://www.youtube.com/watch?v=abc" = none := by
  decide

/-- Claim C1 as amended: when a provider matches and names one of the five
bespoke platforms (YouTube, Instagram, Pinterest, TikTok, X/Twitter),
`get_oembed_data` returns that platform extractor's result as-is — a
`None` (non-raising) result is *not* given the generic fallback; only the
no-provider path runs the custom-platform chain, which does end in the
generic fallback when no custom-domain branch applies (and on an
exception inside a custom branch). -/
theorem claim_C1_thm :
    (∀ (env : ExtractionEnv) (url : String) (p : OEmbedProvider),
      _identify_provider url = some p → p.name = "YouTube" →
      get_oembed_data env url = _extract_youtube env url) ∧
    (∀ (env : ExtractionEnv) (url : String) (p : OEmbedProvider),
      _identify_provider url = some p → p.name = "Instagram" →
      get_oembed_data env url = _extract_instagram env url) ∧
    (∀ (env : ExtractionEnv) (url : String) (p : OEmbedProvider),
      _identify_provider url = some p → p.name = "Pinterest" →
      get_oembed_data env url = _extract_pinterest env url) ∧
    (∀ (env : ExtractionEnv) (url : String) (p : OEmbedProvider),
      _identify_provider url = some p → p.name = "TikTok" →
      get_oembed_data env url = _extract_tiktok env url) ∧
    (∀ (env : ExtractionEnv) (url : String) (p : OEmbedProvider),
      _identify_provider url = some p → p.name = "X (Twitter)" →
      get_oembed_data env url = _extract_twitter env url) ∧
    (∀ (env : ExtractionEnv) (url : String),
      _identify_provider url = none →
      get_oembed_data env url = _extract_custom_platform env url) ∧
    (∀ (env : ExtractionEnv) (url : String),
      _identify_provider url = none → customBranchCond url = false →
      get_oembed_data env url = _fallback_extraction env url) := by
  refine ⟨?_, ?_, ?_, ?_, ?_, ?_, ?_⟩
  · intro env url p h1 h2
    unfold get_oembed_data
    rw [h1]
    simp [h2]
  · intro env url p h1 h2
    unfold get_oembed_data
    rw [h1]
    simp [h2]
  · intro env url p h1 h2
    unfold get_oembed_data
    rw [h1]
    simp [h2]
  · intro env url p h1 h2
    unfold get_oembed_data
    rw [h1]
    simp [h2]
  · intro env url p h1 h2
    unfold get_oembed_data
    rw [h1]
    simp [h2]
  · intro env url h1
    unfold get_oembed_data
    rw [h1]
  · intro env url h1 h2
    unfold get_oembed_data
    rw [h1]
    simp only [customBranchCond] at h2
    simp only [_extract_custom_platform]
    split_ifs with ha hb hc hd he
    · simp [ha] at h2
    · simp [hb] at h2
    · simp [hc] at h2
    · simp [hd] at h2
    · simp [he] at h2
    · rfl

/-- Witness for the amended C1: an Instagram URL dispatches to — and
returns the result of — the Instagram extractor, and an unknown domain
reaches the generic fallback. -/
theorem claim_C1_wit :
    (get_oembed_data oembedDownEnv "https://instagram.com/p/abc" =
      _extract_instagram oembedDownEnv "https://instagram.com/p/abc") ∧
    (get_oembed_data oembedDownEnv "https://example.org/nothing" =
      _fallback_extraction oembedDownEnv "https://example.org/nothing") :=
  ⟨claim_C1_thm.2.1 oembedDownEnv "https://instagram.com/p/abc" instagramProvider
    (by decide) rfl,
   claim_C1_thm.2.2.2.2.2.2 oembedDownEnv "https://example.org/nothing"
    (by decide) (by decide)⟩

/-! ## Claim C9: missing platform ids -/

/-- Counterexample to claim C9: `https://www.youtube.com/watch` is a
supported URL (it matches the YouTube provider scheme
`https://www.youtube.com/watch*`), its video-id patterns do not match,
and — even under a fully cooperative environment — extraction does *not*
proceed with an unset `platform_id`: it yields no result at all. -/
theorem claim_C9_cex :
    is_supported_url "https://www.youtube.com/watch" = true ∧
    _identify_provider "https://www.youtube.com/watch" = some youtubeProvider ∧
    _extract_youtube_id "https://www.youtube.com/watch" = none ∧
    get_oembed_data coopEnv "https://www.youtube.com/watch" = none := by
  decide

/-- Claim C9 as amended: for Twitter, TikTok and Facebook the absence of
an ID-pattern match is indeed non-fatal — extraction proceeds and the
result simply has `platform_id` unset; but for YouTube and Pinterest a
failed ID pattern aborts the platform extractor, which returns no result
at all. -/
theorem claim_C9_thm :
    (∀ (env : ExtractionEnv) (url : String),
      _extract_youtube_id url = none → _extract_youtube env url = none) ∧
    (∀ (env : ExtractionEnv) (url : String),
      strIn "pin.it" url = false → _extract_pinterest_id url = none →
      _extract_pinterest env url = none) ∧
    (∀ (env : ExtractionEnv) (url : String) (d : OEmbedResp),
      _extract_twitter_id url = none →
      _standard_oembed_request env twitterProvider url = some d →
      _extract_twitter env url = some { d with platform := some "twitter" }) ∧
    (∀ (env : ExtractionEnv) (url : String) (m : PageMeta),
      _extract_tiktok_id url = none →
      _standard_oembed_request env tiktokProvider url = none →
      _extract_page_metadata env url = some m → m.nonEmpty = true →
      (_extract_tiktok env url).map (·.platform_id) = some none) ∧
    (∀ (env : ExtractionEnv) (url : String) (m : PageMeta),
      _extract_facebook_id url = none →
      _extract_page_metadata env url = some m → m.nonEmpty = true →
      (_extract_facebook_custom env url).map (·.platform_id) = some none) := by
  refine ⟨?_, ?_, ?_, ?_, ?_⟩
  · intro env url h
    simp [_extract_youtube, h]
  · intro env url h1 h2
    simp [_extract_pinterest, h1, h2]
  · intro env url d h1 h2
    simp [_extract_twitter, h1, h2]
  · intro env url m h1 h2 h3 h4
    simp [_extract_tiktok, h1, h2, h3, h4]
  · intro env url m h1 h2 h3
    simp [_extract_facebook_custom, h1, h2, h3]

/-- Witness for the amended C9: the id-less YouTube watch URL aborts. -/
theorem claim_C9_wit :
    _extract_youtube coopEnv "https://www.youtube.com/watch" = none :=
  claim_C9_thm.1 coopEnv "https://www.youtube.com/watch" (by decide)

end StickyWall
